import Mathlib

/-!
Verification of the line-item computation and row-layout code of the
invoice generator (`item.go`), over a shallow embedding of the
shopspring `decimal` library: a decimal is an arbitrary-precision
integer coefficient together with a power-of-ten exponent.
-/

/-- A `decimal.Decimal`: the number `value * 10 ^ exp`. -/
structure Dec where
  value : Int
  exp : Int
deriving DecidableEq

/-- The exact rational value denoted by a decimal.  The library's
comparisons (`Cmp`, `Equal`) compare exactly this value, independently
of the chosen exponent. -/
def Dec.toRat (d : Dec) : ℚ := (d.value : ℚ) * (10 : ℚ) ^ d.exp

/-- Digit string to number, most significant first. -/
def digitsToNat (cs : List Char) : Nat :=
  cs.foldl (fun n c => n * 10 + (c.toNat - 48)) 0

/-- Nonempty and all decimal digits. -/
def allDigits (cs : List Char) : Bool :=
  cs.all Char.isDigit && !cs.isEmpty

/-- Base-10 signed-integer syntax of `strconv.ParseInt` and
`big.Int.SetString`: an optional sign followed by at least one digit. -/
def parseSignedInt (cs : List Char) : Option Int :=
  match cs with
  | '+' :: rest => if allDigits rest then some (digitsToNat rest) else none
  | '-' :: rest => if allDigits rest then some (-(digitsToNat rest : Int)) else none
  | _ => if allDigits cs then some (digitsToNat cs) else none

/-- Split a character list at the first character satisfying `p`:
the part before it and, when it occurs, the part after it. -/
def splitAtFirst (p : Char → Bool) : List Char → List Char × Option (List Char)
  | [] => ([], none)
  | c :: cs =>
    if p c then ([], some cs)
    else
      let r := splitAtFirst p cs
      (c :: r.1, r.2)

/-- Mantissa handling of `decimal.NewFromString`: at most one decimal
point; the concatenated digit string is read as a signed integer and
the exponent lowered by the length of the fractional part. -/
def newFromStringMantissa (orig : String) (mantissa : List Char) (e : Int) :
    Except String Dec :=
  let ip := splitAtFirst (fun c => c == '.') mantissa
  match ip.2 with
  | some frac =>
    if ((splitAtFirst (fun c => c == '.') frac).2).isSome then
      .error (orig ++ ": too many decimal points")
    else
      match parseSignedInt (ip.1 ++ frac) with
      | none => .error (orig ++ ": not a valid decimal")
      | some v => .ok ⟨v, e - frac.length⟩
  | none =>
    match parseSignedInt ip.1 with
    | none => .error (orig ++ ": not a valid decimal")
    | some v => .ok ⟨v, e⟩

/-- `decimal.NewFromString`: an optional exponent part after the first
`e`/`E`, then the mantissa.  (The int32 range check on the final
exponent is immaterial for these inputs and omitted.) -/
def NewFromString (s : String) : Except String Dec :=
  let sp := splitAtFirst (fun c => c == 'e' || c == 'E') s.toList
  match sp.2 with
  | some ecs =>
    match parseSignedInt ecs with
    | none => .error (s ++ ": exponent is not numeric")
    | some e => newFromStringMantissa s sp.1 e
  | none => newFromStringMantissa s sp.1 0

/-- `DivisionPrecision` of the decimal library: 16 digits after the
decimal point. -/
def DivisionPrecision : Nat := 16

/-- `Decimal.Mul`: exact product. -/
def Dec.Mul (a b : Dec) : Dec := ⟨a.value * b.value, a.exp + b.exp⟩

/-- `Decimal.Add`: rescale both operands to the smaller exponent and
add the coefficients; exact. -/
def Dec.Add (a b : Dec) : Dec :=
  ⟨a.value * 10 ^ (a.exp - min a.exp b.exp).toNat
    + b.value * 10 ^ (b.exp - min a.exp b.exp).toNat, min a.exp b.exp⟩

/-- `Decimal.Sub`: rescale both operands to the smaller exponent and
subtract the coefficients; exact. -/
def Dec.Sub (a b : Dec) : Dec :=
  ⟨a.value * 10 ^ (a.exp - min a.exp b.exp).toNat
    - b.value * 10 ^ (b.exp - min a.exp b.exp).toNat, min a.exp b.exp⟩

/-- Round half away from zero to an integer. -/
def rhaz (x : ℚ) : Int :=
  if 0 ≤ x then ⌊x + 1 / 2⌋ else -⌊-x + 1 / 2⌋

/-- `Decimal.Div`, which is `DivRound` at `DivisionPrecision`: the
exact quotient rounded half away from zero at 16 decimal places
(`QuoRem` truncates toward zero, then the remainder test adds one last
ulp away from zero on a half or more).  The library panics on a zero
divisor; the code under verification only ever divides by 100. -/
def Dec.Div (a b : Dec) : Dec :=
  ⟨rhaz (a.toRat / b.toRat * 10 ^ DivisionPrecision), -(DivisionPrecision : Int)⟩

/-- `decimal.NewFromFloat(100)`: 100 is exactly representable as a
binary float, so the conversion yields exactly 100. -/
def NewFromFloat100 : Dec := ⟨100, 0⟩

/-- `decimal.NewFromFloat(0)`: exactly zero. -/
def NewFromFloat0 : Dec := ⟨0, 0⟩

/-- On a parse error the Go code discards the error and keeps the zero
value `decimal.Decimal{}`, which denotes 0. -/
def decOrZero : Except String Dec → Dec
  | .ok d => d
  | .error _ => ⟨0, 0⟩

/-- Modelled from the spec: Discount and Tax are "structurally
identical" adjustments with a kind that is "Amount | Percent", "fixed
at construction". -/
inductive AdjustmentKind where
  | Amount
  | Percent
deriving DecidableEq

/-- The `DiscountTypeAmount` constant compared against by
`TotalWithoutTaxAndWithDiscount`. -/
def DiscountTypeAmount : AdjustmentKind := AdjustmentKind.Amount

/-- The `TaxTypeAmount` constant compared against by
`TaxWithTotalDiscounted`. -/
def TaxTypeAmount : AdjustmentKind := AdjustmentKind.Amount

/-- Modelled from the spec: the `Discount` type (not under `src/`).  A
kind fixed at construction, a raw decimal-string magnitude, and the
cached decimal shadow copy populated by its preparation step. -/
structure Discount where
  kind : AdjustmentKind
  magnitude : String
  _magnitude : Dec
deriving DecidableEq

/-- Modelled from the spec: `Discount.Prepare` parses the magnitude
during the owning item's preparation step and caches it; a parse
failure is returned and the cache is left untouched. -/
def Discount.Prepare (d : Discount) : Option String × Discount :=
  match NewFromString d.magnitude with
  | .error err => (some err, d)
  | .ok m => (none, { d with _magnitude := m })

/-- Modelled from the spec: `getDiscount` resolves to the kind and the
cached decimal magnitude. -/
def Discount.getDiscount (d : Discount) : AdjustmentKind × Dec :=
  (d.kind, d._magnitude)

/-- Modelled from the spec: the `Tax` type (not under `src/`),
structurally identical to `Discount`. -/
structure Tax where
  kind : AdjustmentKind
  magnitude : String
  _magnitude : Dec
deriving DecidableEq

/-- Modelled from the spec: `Tax.Prepare`, identical to
`Discount.Prepare`. -/
def Tax.Prepare (t : Tax) : Option String × Tax :=
  match NewFromString t.magnitude with
  | .error err => (some err, t)
  | .ok m => (none, { t with _magnitude := m })

/-- Modelled from the spec: `getTax`, identical to `getDiscount`. -/
def Tax.getTax (t : Tax) : AdjustmentKind × Dec :=
  (t.kind, t._magnitude)

/-- `Item` of `item.go`: raw string fields set by the caller plus the
cached decimal shadow copies `_unitCost` and `_quantity` populated by
`Prepare` (zero-valued before preparation). -/
structure Item where
  Name : String
  Description : String
  UnitCost : String
  Quantity : String
  Tax : Option Tax
  Discount : Option Discount
  Total : String
  _unitCost : Dec
  _quantity : Dec
deriving DecidableEq

/-- Prepare an optional nested Discount/Tax the way the Go code
prepares through a possibly-nil pointer: absent means no work and no
error; present means the nested Prepare runs and its mutation sticks
even when it errors. -/
def prepareOpt {α : Type} (prep : α → Option String × α) :
    Option α → Option String × Option α
  | none => (none, none)
  | some x =>
    let r := prep x
    (r.1, some r.2)

/-- `Item.Prepare` of `item.go`: parses unit cost, then quantity, then
prepares tax and discount, stopping at (and returning) the first
error.  The receiver is mutated in place in Go, so fields cached
before a failing step remain populated in the returned item. -/
def Item.Prepare (i : Item) : Option String × Item :=
  match NewFromString i.UnitCost with
  | .error err => (some err, i)
  | .ok unitCost =>
    let i1 : Item := { i with _unitCost := unitCost }
    match NewFromString i1.Quantity with
    | .error err => (some err, i1)
    | .ok quantity =>
      let i2 : Item := { i1 with _quantity := quantity }
      let rt := prepareOpt Tax.Prepare i2.Tax
      let i3 : Item := { i2 with Tax := rt.2 }
      match rt.1 with
      | some err => (some err, i3)
      | none =>
        let rd := prepareOpt Discount.Prepare i3.Discount
        let i4 : Item := { i3 with Discount := rd.2 }
        match rd.1 with
        | some err => (some err, i4)
        | none => (none, i4)

/-- `Item.TotalWithoutTaxAndWithoutDiscount`: re-parses the quantity
and unit-cost strings, discarding any parse error (the blank
identifier in Go), and multiplies. -/
def Item.TotalWithoutTaxAndWithoutDiscount (i : Item) : Dec :=
  let quantity := decOrZero (NewFromString i.Quantity)
  let price := decOrZero (NewFromString i.UnitCost)
  price.Mul quantity

/-- `Item.TotalWithoutTaxAndWithDiscount`: subtracts a flat discount
directly, or a percent discount as `total * (magnitude / 100)`. -/
def Item.TotalWithoutTaxAndWithDiscount (i : Item) : Dec :=
  let total := i.TotalWithoutTaxAndWithoutDiscount
  match i.Discount with
  | none => total
  | some d =>
    let r := d.getDiscount
    if r.1 = DiscountTypeAmount then
      total.Sub r.2
    else
      total.Sub (total.Mul (r.2.Div NewFromFloat100))

/-- `Item.TaxWithTotalDiscounted`: zero when no tax; a flat tax is
returned as-is; a percent tax is `totalHT * (magnitude / 100)` with
`totalHT` the discounted subtotal. -/
def Item.TaxWithTotalDiscounted (i : Item) : Dec :=
  match i.Tax with
  | none => NewFromFloat0
  | some t =>
    let totalHT := i.TotalWithoutTaxAndWithDiscount
    let r := t.getTax
    if r.1 = TaxTypeAmount then
      r.2
    else
      totalHT.Mul (r.2.Div NewFromFloat100)

/-- `Item.TotalWithTaxAndDiscount`: discounted subtotal plus tax. -/
def Item.TotalWithTaxAndDiscount (i : Item) : Dec :=
  i.TotalWithoutTaxAndWithDiscount.Add i.TaxWithTotalDiscounted

/-- A drawing instruction emitted to the page, recorded with the
cursor position it was issued at. -/
inductive PdfOp where
  | multiCell (x y w lineHeight : ℚ) (numLines : Nat) (text : String)
  | cellFormat (x y w h : ℚ) (text : String) (border align : String)
deriving DecidableEq

/-- The page-drawing primitive's cursor and style state (spec boundary
contract): abscissa, ordinate, left margin, current font and text
color, and the instructions drawn so far. -/
structure PdfState where
  x : ℚ
  y : ℚ
  lMargin : ℚ
  fontName : String
  fontStyle : String
  fontSize : ℚ
  textColor : Int × Int × Int
  ops : List PdfOp
deriving DecidableEq

def PdfState.GetY (s : PdfState) : ℚ := s.y

def PdfState.SetX (s : PdfState) (x : ℚ) : PdfState := { s with x := x }

/-- `SetY` also moves the abscissa back to the left margin. -/
def PdfState.SetY (s : PdfState) (y : ℚ) : PdfState :=
  { s with y := y, x := s.lMargin }

def PdfState.SetFont (s : PdfState) (name style : String) (size : ℚ) : PdfState :=
  { s with fontName := name, fontStyle := style, fontSize := size }

def PdfState.SetTextColor (s : PdfState) (r g b : Int) : PdfState :=
  { s with textColor := (r, g, b) }

/-- `MultiCell` wraps `text` into lines at width `w` for the current
font; each line is `lineHeight` tall, so the ordinate advances by
their product and the abscissa returns to the left margin.  The number
of lines is given by the opaque wrapping collaborator `wrap`, a
function of the text, the cell width and the current font size (the
only font component this code varies). -/
def PdfState.MultiCell (s : PdfState) (wrap : String → ℚ → ℚ → Nat)
    (w lineHeight : ℚ) (text border align : String) (fill : Bool) : PdfState :=
  let n := wrap text w s.fontSize
  { s with
    y := s.y + n * lineHeight,
    x := s.lMargin,
    ops := s.ops ++ [PdfOp.multiCell s.x s.y w lineHeight n text] }

/-- `CellFormat` with `ln = 0` (the only mode this code uses): draws a
single boxed cell of the given width and height at the current
position and moves the abscissa to its right edge. -/
def PdfState.CellFormat (s : PdfState) (w h : ℚ) (text border : String)
    (ln : Nat) (align : String) (fill : Bool) (link : Nat) (linkStr : String) :
    PdfState :=
  { s with x := s.x + w, ops := s.ops ++ [PdfOp.cellFormat s.x s.y w h text border align] }

/-- Modelled from the spec: the fixed column offsets (`ItemCol*Offset`
constants, not under `src/`) that bound each column band. -/
structure ColOffsets where
  ItemColNameOffset : ℚ
  ItemColUnitPriceOffset : ℚ
  ItemColQuantityOffset : ℚ
  ItemColTaxOffset : ℚ
  ItemColTotalHTOffset : ℚ
deriving DecidableEq

/-- `Options` as used by `appendColTo`: font family and the two text
colors (boundary styling state; not under `src/`). -/
structure Options where
  Font : String
  GreyTextColor : Int × Int × Int
  BaseTextColor : Int × Int × Int

/-- `SmallTextFontSize` (de-emphasized description style) and
`BaseTextFontSize`: constants not under `src/`; their concrete values
are immaterial here. -/
def SmallTextFontSize : ℚ := 7

def BaseTextFontSize : ℚ := 8

/-- The `Document` context `appendColTo` draws into: the pdf state
plus the opaque boundary collaborators — `encodeString` (text-encoding
adapter), `formatMoneyDecimal` (money formatter `doc.ac`), the decimal
library's render-time `String` method, and the text-wrapping metric
used by `MultiCell`. -/
structure Document where
  pdf : PdfState
  Options : Options
  encodeString : String → String
  formatMoneyDecimal : Dec → String
  decimalString : Dec → String
  wrap : String → ℚ → ℚ → Nat

/-- `Item.appendColTo` of `item.go`: renders the name (and the
description, in the de-emphasized style) wrapped in the name column,
measures the consumed height, then draws the unit-price, quantity and
total cells with that height back at the top of the row, and finally
moves the cursor to just below the row. -/
def Item.appendColTo (i : Item) (offs : ColOffsets) (options : Options)
    (doc : Document) : Document :=
  let pdf := doc.pdf
  let baseY := pdf.GetY
  let pdf := pdf.SetX offs.ItemColNameOffset
  let pdf := pdf.MultiCell doc.wrap (offs.ItemColUnitPriceOffset - offs.ItemColNameOffset)
    3 (doc.encodeString i.Name) ("") ("") false
  let pdf :=
    if 0 < i.Description.length then
      let pdf := pdf.SetX offs.ItemColNameOffset
      let pdf := pdf.SetY (pdf.GetY + 1)
      let pdf := pdf.SetFont doc.Options.Font ("") SmallTextFontSize
      let pdf := pdf.SetTextColor doc.Options.GreyTextColor.1
        doc.Options.GreyTextColor.2.1 doc.Options.GreyTextColor.2.2
      let pdf := pdf.MultiCell doc.wrap
        (offs.ItemColUnitPriceOffset - offs.ItemColNameOffset)
        3 (doc.encodeString i.Description) ("") ("") false
      let pdf := pdf.SetFont doc.Options.Font ("") BaseTextFontSize
      let pdf := pdf.SetTextColor doc.Options.BaseTextColor.1
        doc.Options.BaseTextColor.2.1 doc.Options.BaseTextColor.2.2
      pdf
    else pdf
  let colHeight := pdf.GetY - baseY
  let pdf := pdf.SetY baseY
  let pdf := pdf.SetX offs.ItemColUnitPriceOffset
  let pdf := pdf.CellFormat (offs.ItemColQuantityOffset - offs.ItemColUnitPriceOffset)
    colHeight (doc.encodeString (doc.formatMoneyDecimal i._unitCost)) ("0") 0 ("") false 0 ("")
  let pdf := pdf.SetX offs.ItemColQuantityOffset
  let pdf := pdf.CellFormat (offs.ItemColTaxOffset - offs.ItemColQuantityOffset)
    colHeight (doc.encodeString (doc.decimalString i._quantity)) ("0") 0 ("") false 0 ("")
  let pdf := pdf.SetX offs.ItemColTotalHTOffset
  let pdf := pdf.CellFormat (offs.ItemColTaxOffset - offs.ItemColTotalHTOffset)
    colHeight (doc.encodeString i.Total) ("0") 0 ("") false 0 ("")
  let pdf := pdf.SetY (baseY + colHeight)
  { doc with pdf := pdf }

/-- The vertical extent of the name-plus-description block measured
from the row's starting cursor position: the wrapped name lines, plus,
when a description is present, the one-unit gap and the wrapped
description lines (wrapped at the small font size). -/
def rowHeight (i : Item) (offs : ColOffsets) (doc : Document) : ℚ :=
  let nameH : ℚ :=
    (doc.wrap (doc.encodeString i.Name)
      (offs.ItemColUnitPriceOffset - offs.ItemColNameOffset) doc.pdf.fontSize : ℚ) * 3
  if 0 < i.Description.length then
    nameH + 1 + (doc.wrap (doc.encodeString i.Description)
      (offs.ItemColUnitPriceOffset - offs.ItemColNameOffset) SmallTextFontSize : ℚ) * 3
  else nameH

/-- The heights of the boxed cells among a list of drawing
instructions, in order. -/
def cellHeights (ops : List PdfOp) : List ℚ :=
  ops.filterMap fun op =>
    match op with
    | PdfOp.cellFormat _ _ _ h _ _ _ => some h
    | _ => none

/-- The texts of the boxed cells drawn at abscissa `x`, in order. -/
def cellTextsAt (x : ℚ) (ops : List PdfOp) : List String :=
  ops.filterMap fun op =>
    match op with
    | PdfOp.cellFormat x2 _ _ _ t _ _ => if x2 = x then some t else none
    | _ => none

/-- A raw item with a percent tax whose magnitude has 17 fractional
digits, so that its division by 100 overflows `DivisionPrecision`. -/
def c1Raw : Item :=
  { Name := "a", Description := "", UnitCost := "1", Quantity := "1",
    Tax := some ⟨AdjustmentKind.Percent, "0.00000000000000001", ⟨0, 0⟩⟩,
    Discount := none, Total := "", _unitCost := ⟨0, 0⟩, _quantity := ⟨0, 0⟩ }

/-- `c1Raw` after successful preparation. -/
def c1Item : Item :=
  { c1Raw with
    Tax := some ⟨AdjustmentKind.Percent, "0.00000000000000001", ⟨1, -17⟩⟩,
    _unitCost := ⟨1, 0⟩, _quantity := ⟨1, 0⟩ }

/-- A raw item matching the spec's end-to-end scenario 2: 10 percent
discount, then 20 percent tax. -/
def c1wRaw : Item :=
  { Name := "a", Description := "", UnitCost := "100", Quantity := "1",
    Tax := some ⟨AdjustmentKind.Percent, "20", ⟨0, 0⟩⟩,
    Discount := some ⟨AdjustmentKind.Percent, "10", ⟨0, 0⟩⟩,
    Total := "", _unitCost := ⟨0, 0⟩, _quantity := ⟨0, 0⟩ }

/-- `c1wRaw` after successful preparation. -/
def c1wItem : Item :=
  { c1wRaw with
    Tax := some ⟨AdjustmentKind.Percent, "20", ⟨20, 0⟩⟩,
    Discount := some ⟨AdjustmentKind.Percent, "10", ⟨10, 0⟩⟩,
    _unitCost := ⟨100, 0⟩, _quantity := ⟨1, 0⟩ }

/-- An unpreparable item: the quantity is not a decimal string. -/
def c2Item : Item :=
  { Name := "a", Description := "", UnitCost := "5", Quantity := "abc",
    Tax := none, Discount := none, Total := "", _unitCost := ⟨0, 0⟩,
    _quantity := ⟨0, 0⟩ }

/-- Another unpreparable item, for the witness. -/
def c2wItem : Item :=
  { Name := "a", Description := "", UnitCost := "7", Quantity := "xyz",
    Tax := none, Discount := none, Total := "", _unitCost := ⟨0, 0⟩,
    _quantity := ⟨0, 0⟩ }

/-- An item whose unit cost parses but whose quantity does not. -/
def c3Raw : Item :=
  { Name := "a", Description := "", UnitCost := "5", Quantity := "abc",
    Tax := none, Discount := none, Total := "", _unitCost := ⟨0, 0⟩,
    _quantity := ⟨0, 0⟩ }

/-- Another such item, for the witness. -/
def c3wItem : Item :=
  { Name := "a", Description := "", UnitCost := "2.5", Quantity := "oops",
    Tax := none, Discount := none, Total := "", _unitCost := ⟨0, 0⟩,
    _quantity := ⟨0, 0⟩ }

/-- Concrete column offsets (name, unit price, quantity, tax, total). -/
def cOffs : ColOffsets := ⟨10, 80, 103, 136, 117⟩

/-- Concrete styling options. -/
def cOpts : Options := ⟨"helvetica", (100, 100, 100), (0, 0, 0)⟩

/-- A fresh page state at the top of the body. -/
def cPdf : PdfState :=
  { x := 10, y := 0, lMargin := 10, fontName := "helvetica", fontStyle := "",
    fontSize := 8, textColor := (0, 0, 0), ops := [] }

/-- A concrete document context with transparent collaborators: identity
encoding, constant money/decimal rendering, every text wrapping to one
line. -/
def c4Doc : Document :=
  { pdf := cPdf, Options := cOpts, encodeString := fun s => s,
    formatMoneyDecimal := fun _ => "$", decimalString := fun _ => "q",
    wrap := fun _ _ _ => 1 }

/-- A raw item whose caller-supplied `Total` field disagrees with its
computed grand total. -/
def c4Raw : Item :=
  { Name := "Widget", Description := "", UnitCost := "10.00", Quantity := "3",
    Tax := none, Discount := none, Total := "999.99", _unitCost := ⟨0, 0⟩,
    _quantity := ⟨0, 0⟩ }

/-- `c4Raw` after successful preparation. -/
def c4Item : Item :=
  { c4Raw with _unitCost := ⟨1000, -2⟩, _quantity := ⟨3, 0⟩ }

/-- A concrete document context wrapping everything to two lines. -/
def c9Doc : Document :=
  { pdf := cPdf, Options := cOpts, encodeString := fun s => s,
    formatMoneyDecimal := fun _ => "$", decimalString := fun _ => "q",
    wrap := fun _ _ _ => 2 }

/-- A prepared item with a description, exercising the two-block row. -/
def c9Item : Item :=
  { Name := "Widget", Description := "A very nice widget", UnitCost := "10.00",
    Quantity := "3", Tax := none, Discount := none, Total := "30",
    _unitCost := ⟨1000, -2⟩, _quantity := ⟨3, 0⟩ }

/-- A prepared item for the subtotal witness. -/
def c5Item : Item :=
  { Name := "a", Description := "", UnitCost := "10.00", Quantity := "3",
    Tax := none, Discount := none, Total := "", _unitCost := ⟨1000, -2⟩,
    _quantity := ⟨3, 0⟩ }

/-- A raw item with a percent discount whose magnitude has 17
fractional digits, and no tax. -/
def c7Raw : Item :=
  { Name := "a", Description := "", UnitCost := "1", Quantity := "1",
    Tax := none,
    Discount := some ⟨AdjustmentKind.Percent, "0.00000000000000001", ⟨0, 0⟩⟩,
    Total := "", _unitCost := ⟨0, 0⟩, _quantity := ⟨0, 0⟩ }

/-- `c7Raw` after successful preparation. -/
def c7Item : Item :=
  { c7Raw with
    Discount := some ⟨AdjustmentKind.Percent, "0.00000000000000001", ⟨1, -17⟩⟩,
    _unitCost := ⟨1, 0⟩, _quantity := ⟨1, 0⟩ }

/-- A prepared item with a 10 percent discount and no tax. -/
def c7wItem : Item :=
  { Name := "a", Description := "", UnitCost := "100", Quantity := "1",
    Tax := none, Discount := some ⟨AdjustmentKind.Percent, "10", ⟨10, 0⟩⟩,
    Total := "", _unitCost := ⟨100, 0⟩, _quantity := ⟨1, 0⟩ }

/-- A prepared item with neither discount nor tax. -/
def c8Item : Item :=
  { Name := "a", Description := "", UnitCost := "10.00", Quantity := "3",
    Tax := none, Discount := none, Total := "", _unitCost := ⟨1000, -2⟩,
    _quantity := ⟨3, 0⟩ }

/-- A raw item with a flat discount larger than the subtotal and a
percent tax above 100. -/
def c10Raw : Item :=
  { Name := "a", Description := "", UnitCost := "1", Quantity := "1",
    Tax := some ⟨AdjustmentKind.Percent, "150", ⟨0, 0⟩⟩,
    Discount := some ⟨AdjustmentKind.Amount, "5", ⟨0, 0⟩⟩,
    Total := "", _unitCost := ⟨0, 0⟩, _quantity := ⟨0, 0⟩ }

/-- `c10Raw` after successful preparation. -/
def c10Item : Item :=
  { c10Raw with
    Tax := some ⟨AdjustmentKind.Percent, "150", ⟨150, 0⟩⟩,
    Discount := some ⟨AdjustmentKind.Amount, "5", ⟨5, 0⟩⟩,
    _unitCost := ⟨1, 0⟩, _quantity := ⟨1, 0⟩ }

/-- Rescaling a coefficient to a smaller exponent preserves the value. -/
theorem ten_pow_toNat_mul (ex e : Int) (h : e ≤ ex) :
    (10 : ℚ) ^ (ex - e).toNat * (10 : ℚ) ^ e = (10 : ℚ) ^ ex := by
  rw [← zpow_natCast (10 : ℚ) (ex - e).toNat,
    Int.toNat_of_nonneg (by omega : (0 : ℤ) ≤ ex - e),
    ← zpow_add₀ (by norm_num : (10 : ℚ) ≠ 0), sub_add_cancel]

/-- Multiplication of decimals is exact. -/
theorem Dec.toRat_Mul (a b : Dec) : (a.Mul b).toRat = a.toRat * b.toRat := by
  simp only [Dec.Mul, Dec.toRat, zpow_add₀ (by norm_num : (10 : ℚ) ≠ 0)]
  push_cast
  ring

/-- Addition of decimals is exact. -/
theorem Dec.toRat_Add (a b : Dec) : (a.Add b).toRat = a.toRat + b.toRat := by
  simp only [Dec.Add, Dec.toRat]
  push_cast
  rw [add_mul, mul_assoc, mul_assoc,
    ten_pow_toNat_mul a.exp (min a.exp b.exp) (min_le_left a.exp b.exp),
    ten_pow_toNat_mul b.exp (min a.exp b.exp) (min_le_right a.exp b.exp)]

/-- Subtraction of decimals is exact. -/
theorem Dec.toRat_Sub (a b : Dec) : (a.Sub b).toRat = a.toRat - b.toRat := by
  simp only [Dec.Sub, Dec.toRat]
  push_cast
  rw [sub_mul, mul_assoc, mul_assoc,
    ten_pow_toNat_mul a.exp (min a.exp b.exp) (min_le_left a.exp b.exp),
    ten_pow_toNat_mul b.exp (min a.exp b.exp) (min_le_right a.exp b.exp)]

/-- Rounding half away from zero is the identity on integers. -/
theorem rhaz_intCast (n : Int) : rhaz (n : ℚ) = n := by
  unfold rhaz
  have h0 : (⌊(1 : ℚ) / 2⌋ : Int) = 0 := by norm_num
  split
  · rw [show ((n : ℚ) + 1 / 2) = (1 : ℚ) / 2 + (n : Int) by ring,
      Int.floor_add_int, h0, zero_add]
  · rw [show (-(n : ℚ) + 1 / 2) = (1 : ℚ) / 2 + ((-n : Int) : ℚ) by push_cast; ring,
      Int.floor_add_int, h0, zero_add, neg_neg]

/-- Division by 100 is exact whenever the dividend's exponent is at
least `-14`, i.e. whenever the quotient fits in the 16 decimal places
of `DivisionPrecision`. -/
theorem Dec.toRat_Div_hundred (d : Dec) (h : -14 ≤ d.exp) :
    (d.Div NewFromFloat100).toRat = d.toRat / 100 := by
  have h10 : (10 : ℚ) ≠ 0 := by norm_num
  have hTo : ((d.exp + 14).toNat : ℤ) = d.exp + 14 :=
    Int.toNat_of_nonneg (by omega)
  have hnpow : ((10 : ℚ) ^ (d.exp + 14).toNat) = (10 : ℚ) ^ (d.exp + 14) := by
    rw [← zpow_natCast (10 : ℚ) (d.exp + 14).toNat, hTo]
  have hkey : d.toRat / NewFromFloat100.toRat * 10 ^ DivisionPrecision
      = ((d.value * 10 ^ (d.exp + 14).toNat : Int) : ℚ) := by
    simp only [Dec.toRat, NewFromFloat100, DivisionPrecision]
    push_cast
    rw [hnpow, zpow_zero, mul_one, zpow_add₀ h10 d.exp 14]
    field_simp
    ring
  simp only [Dec.Div]
  rw [hkey, rhaz_intCast]
  simp only [Dec.toRat, DivisionPrecision]
  push_cast
  rw [hnpow, zpow_add₀ h10 d.exp 14, zpow_neg]
  field_simp
  ring

/-- C5: for every line item whose unit cost and quantity are valid
decimal strings, `TotalWithoutTaxAndWithoutDiscount` returns exactly
unit cost times quantity, with no discount and no tax applied. -/
theorem C5_theorem (i : Item) (u q : Dec)
    (hu : NewFromString i.UnitCost = .ok u)
    (hq : NewFromString i.Quantity = .ok q) :
    i.TotalWithoutTaxAndWithoutDiscount.toRat = u.toRat * q.toRat := by
  simp only [Item.TotalWithoutTaxAndWithoutDiscount, hu, hq, decOrZero,
    Dec.toRat_Mul]

/-- Witness for C5 at unit cost "10.00" and quantity "3". -/
theorem C5_witness :
    NewFromString c5Item.UnitCost = .ok ⟨1000, -2⟩ ∧
    NewFromString c5Item.Quantity = .ok ⟨3, 0⟩ ∧
    c5Item.TotalWithoutTaxAndWithoutDiscount.toRat
      = Dec.toRat ⟨1000, -2⟩ * Dec.toRat ⟨3, 0⟩ :=
  ⟨rfl, rfl, C5_theorem c5Item ⟨1000, -2⟩ ⟨3, 0⟩ rfl rfl⟩

/-- C6: for every line item, `TotalWithTaxAndDiscount` returns exactly
the discounted subtotal plus the tax amount. -/
theorem C6_theorem (i : Item) :
    i.TotalWithTaxAndDiscount.toRat
      = i.TotalWithoutTaxAndWithDiscount.toRat + i.TaxWithTotalDiscounted.toRat := by
  simp only [Item.TotalWithTaxAndDiscount, Dec.toRat_Add]

/-- C8: with no discount attached the discounted subtotal is the
subtotal unchanged, and with no tax attached the tax amount is exactly
zero. -/
theorem C8_theorem (i : Item) :
    (i.Discount = none →
      i.TotalWithoutTaxAndWithDiscount.toRat
        = i.TotalWithoutTaxAndWithoutDiscount.toRat) ∧
    (i.Tax = none → i.TaxWithTotalDiscounted.toRat = 0) := by
  constructor
  · intro hd
    simp only [Item.TotalWithoutTaxAndWithDiscount, hd]
  · intro ht
    simp only [Item.TaxWithTotalDiscounted, ht, NewFromFloat0, Dec.toRat]
    norm_num

/-- Witness for C8 at an item with neither discount nor tax. -/
theorem C8_witness :
    c8Item.TotalWithoutTaxAndWithDiscount.toRat
      = c8Item.TotalWithoutTaxAndWithoutDiscount.toRat ∧
    c8Item.TaxWithTotalDiscounted.toRat = 0 :=
  ⟨(C8_theorem c8Item).1 rfl, (C8_theorem c8Item).2 rfl⟩

/-- C1 (amended): for a percent tax whose prepared magnitude has at
most 14 fractional digits, the tax amount is exactly the discounted
subtotal `TotalWithoutTaxAndWithDiscount` times magnitude/100 — the
base of the tax computation is the post-discount subtotal. -/
theorem C1_theorem (i : Item) (t : Tax) (ht : i.Tax = some t)
    (hk : t.kind = AdjustmentKind.Percent) (he : -14 ≤ t._magnitude.exp) :
    i.TaxWithTotalDiscounted.toRat
      = i.TotalWithoutTaxAndWithDiscount.toRat * (t._magnitude.toRat / 100) := by
  simp only [Item.TaxWithTotalDiscounted, ht, Tax.getTax, hk]
  rw [if_neg (by decide), Dec.toRat_Mul, Dec.toRat_Div_hundred t._magnitude he]

/-- Counterexample to C1 as stated: a prepared item with the percent
tax magnitude 0.00000000000000001, whose division by 100 rounds to
zero at `DivisionPrecision`, so the tax amount is not the discounted
subtotal times magnitude/100. -/
theorem C1_counterexample :
    c1Raw.Prepare = (none, c1Item) ∧
    c1Item.TaxWithTotalDiscounted.toRat
      ≠ c1Item.TotalWithoutTaxAndWithDiscount.toRat * (Dec.toRat ⟨1, -17⟩ / 100) := by
  refine ⟨rfl, ?_⟩
  have h1 : c1Item.TaxWithTotalDiscounted
      = Dec.Mul ⟨1, 0⟩ (Dec.Div ⟨1, -17⟩ NewFromFloat100) := rfl
  have h2 : c1Item.TotalWithoutTaxAndWithDiscount = (⟨1, 0⟩ : Dec) := rfl
  rw [h1, h2, Dec.toRat_Mul]
  norm_num [Dec.Div, Dec.toRat, rhaz, NewFromFloat100, DivisionPrecision]

/-- Witness for C1 at the spec's scenario 2 (10 percent discount, then
20 percent tax). -/
theorem C1_witness :
    c1wItem.Tax = some ⟨AdjustmentKind.Percent, "20", ⟨20, 0⟩⟩ ∧
    c1wItem.TaxWithTotalDiscounted.toRat
      = c1wItem.TotalWithoutTaxAndWithDiscount.toRat * (Dec.toRat ⟨20, 0⟩ / 100) :=
  ⟨rfl, C1_theorem c1wItem ⟨AdjustmentKind.Percent, "20", ⟨20, 0⟩⟩ rfl rfl (by decide)⟩

/-- C7 (amended): for a percent discount whose prepared magnitude has
at most 14 fractional digits, and no tax, the discounted subtotal is
exactly subtotal times (1 - magnitude/100). -/
theorem C7_theorem (i : Item) (d : Discount) (hd : i.Discount = some d)
    (hk : d.kind = AdjustmentKind.Percent) (he : -14 ≤ d._magnitude.exp)
    (ht : i.Tax = none) :
    i.TotalWithoutTaxAndWithDiscount.toRat
      = i.TotalWithoutTaxAndWithoutDiscount.toRat * (1 - d._magnitude.toRat / 100) := by
  simp only [Item.TotalWithoutTaxAndWithDiscount, hd, Discount.getDiscount, hk]
  rw [if_neg (by decide), Dec.toRat_Sub, Dec.toRat_Mul,
    Dec.toRat_Div_hundred d._magnitude he]
  ring

/-- Counterexample to C7 as stated: a prepared item with the percent
discount magnitude 0.00000000000000001 and no tax; the division by 100
rounds to zero at `DivisionPrecision`, so the discounted subtotal is
not subtotal times (1 - magnitude/100). -/
theorem C7_counterexample :
    c7Raw.Prepare = (none, c7Item) ∧
    c7Item.TotalWithoutTaxAndWithDiscount.toRat
      ≠ c7Item.TotalWithoutTaxAndWithoutDiscount.toRat
        * (1 - Dec.toRat ⟨1, -17⟩ / 100) := by
  refine ⟨rfl, ?_⟩
  have h1 : c7Item.TotalWithoutTaxAndWithDiscount
      = Dec.Sub ⟨1, 0⟩ (Dec.Mul ⟨1, 0⟩ (Dec.Div ⟨1, -17⟩ NewFromFloat100)) := rfl
  have h2 : c7Item.TotalWithoutTaxAndWithoutDiscount = (⟨1, 0⟩ : Dec) := rfl
  rw [h1, h2, Dec.toRat_Sub, Dec.toRat_Mul]
  norm_num [Dec.Div, Dec.toRat, rhaz, NewFromFloat100, DivisionPrecision]

/-- Witness for C7 at a 10 percent discount on a subtotal of 100. -/
theorem C7_witness :
    c7wItem.Discount = some ⟨AdjustmentKind.Percent, "10", ⟨10, 0⟩⟩ ∧
    c7wItem.Tax = none ∧
    c7wItem.TotalWithoutTaxAndWithDiscount.toRat
      = c7wItem.TotalWithoutTaxAndWithoutDiscount.toRat
        * (1 - Dec.toRat ⟨10, 0⟩ / 100) :=
  ⟨rfl, rfl,
    C7_theorem c7wItem ⟨AdjustmentKind.Percent, "10", ⟨10, 0⟩⟩ rfl rfl (by decide) rfl⟩

/-- C2 (amended): the computation operations never fail and never
consult preparation: they re-parse the raw strings and use zero for an
unparsable field, so on an item whose quantity does not parse the
subtotal is silently zero (and, with no discount and no tax, so are
the other three totals). -/
theorem C2_theorem (i : Item) (e : String)
    (hq : NewFromString i.Quantity = .error e) :
    i.TotalWithoutTaxAndWithoutDiscount.toRat = 0 ∧
    (i.Discount = none → i.Tax = none →
      i.TotalWithoutTaxAndWithDiscount.toRat = 0 ∧
      i.TaxWithTotalDiscounted.toRat = 0 ∧
      i.TotalWithTaxAndDiscount.toRat = 0) := by
  have hsub : i.TotalWithoutTaxAndWithoutDiscount.toRat = 0 := by
    simp only [Item.TotalWithoutTaxAndWithoutDiscount, hq, decOrZero,
      Dec.toRat_Mul]
    simp [Dec.toRat]
  refine ⟨hsub, fun hd ht => ?_⟩
  have hdsub : i.TotalWithoutTaxAndWithDiscount.toRat = 0 := by
    simp only [Item.TotalWithoutTaxAndWithDiscount, hd]
    exact hsub
  have htax : i.TaxWithTotalDiscounted.toRat = 0 := by
    simp only [Item.TaxWithTotalDiscounted, ht, NewFromFloat0, Dec.toRat]
    norm_num
  refine ⟨hdsub, htax, ?_⟩
  rw [Item.TotalWithTaxAndDiscount, Dec.toRat_Add, hdsub, htax]
  norm_num

/-- Counterexample to C2 as stated: an item whose preparation fails
(quantity "abc"), yet all four computation operations return — with the
value zero — rather than failing with any error. -/
theorem C2_counterexample :
    ((c2Item.Prepare).1).isSome = true ∧
    c2Item.TotalWithoutTaxAndWithoutDiscount.toRat = 0 ∧
    c2Item.TotalWithoutTaxAndWithDiscount.toRat = 0 ∧
    c2Item.TaxWithTotalDiscounted.toRat = 0 ∧
    c2Item.TotalWithTaxAndDiscount.toRat = 0 := by
  refine ⟨rfl, ?_, ?_, ?_, ?_⟩
  · rw [show c2Item.TotalWithoutTaxAndWithoutDiscount = (⟨0, 0⟩ : Dec) from rfl]
    norm_num [Dec.toRat]
  · rw [show c2Item.TotalWithoutTaxAndWithDiscount = (⟨0, 0⟩ : Dec) from rfl]
    norm_num [Dec.toRat]
  · rw [show c2Item.TaxWithTotalDiscounted = (⟨0, 0⟩ : Dec) from rfl]
    norm_num [Dec.toRat]
  · rw [show c2Item.TotalWithTaxAndDiscount = (⟨0, 0⟩ : Dec) from rfl]
    norm_num [Dec.toRat]

/-- Witness for C2 at quantity "xyz". -/
theorem C2_witness :
    NewFromString c2wItem.Quantity = .error ("xyz: not a valid decimal") ∧
    c2wItem.TotalWithoutTaxAndWithoutDiscount.toRat = 0 :=
  ⟨rfl, (C2_theorem c2wItem ("xyz: not a valid decimal") rfl).1⟩

/-- C3 (amended): `Prepare` aborts at the first failing field and
returns that error, but derived state cached before the failing field
is retained: when the unit cost fails nothing is touched, and when the
quantity fails the already-cached decimal unit cost stays populated in
the item. -/
theorem C3_theorem (i : Item) :
    (∀ e, NewFromString i.UnitCost = .error e → i.Prepare = (some e, i)) ∧
    (∀ u e, NewFromString i.UnitCost = .ok u →
      NewFromString i.Quantity = .error e →
      i.Prepare = (some e, { i with _unitCost := u })) := by
  constructor
  · intro e he
    simp only [Item.Prepare, he]
  · intro u e hu hq
    simp only [Item.Prepare, hu, hq]

/-- Counterexample to C3 as stated: preparation of `c3Raw` (quantity
"abc") fails, yet the returned item's cached decimal unit cost has been
populated with 5 — partial derived state is retained. -/
theorem C3_counterexample :
    ((c3Raw.Prepare).1).isSome = true ∧
    ((c3Raw.Prepare).2)._unitCost = ⟨5, 0⟩ ∧
    c3Raw._unitCost = ⟨0, 0⟩ :=
  ⟨rfl, rfl, rfl⟩

/-- Witness for C3 at unit cost "2.5" and quantity "oops". -/
theorem C3_witness :
    NewFromString c3wItem.UnitCost = .ok ⟨25, -1⟩ ∧
    NewFromString c3wItem.Quantity = .error ("oops: not a valid decimal") ∧
    c3wItem.Prepare
      = (some ("oops: not a valid decimal"), { c3wItem with _unitCost := ⟨25, -1⟩ }) :=
  ⟨rfl, rfl, (C3_theorem c3wItem).2 ⟨25, -1⟩ ("oops: not a valid decimal") rfl rfl⟩

/-- C10: no computation operation clamps.  A flat discount is
subtracted as-is even past zero, a percent magnitude outside 0-100 is
applied as-is, and negative discounted subtotals and grand totals are
representable outputs (here -4 and -10 for a flat discount of 5 on a
subtotal of 1 with a 150 percent tax). -/
theorem C10_theorem :
    (∀ (i : Item) (d : Discount), i.Discount = some d →
      d.kind = DiscountTypeAmount →
      i.TotalWithoutTaxAndWithDiscount.toRat
        = i.TotalWithoutTaxAndWithoutDiscount.toRat - d._magnitude.toRat) ∧
    c10Raw.Prepare = (none, c10Item) ∧
    c10Item.TotalWithoutTaxAndWithDiscount.toRat = -4 ∧
    c10Item.TaxWithTotalDiscounted.toRat = -6 ∧
    c10Item.TotalWithTaxAndDiscount.toRat = -10 := by
  have hflat : ∀ (i : Item) (d : Discount), i.Discount = some d →
      d.kind = DiscountTypeAmount →
      i.TotalWithoutTaxAndWithDiscount.toRat
        = i.TotalWithoutTaxAndWithoutDiscount.toRat - d._magnitude.toRat := by
    intro i d hd hk
    simp only [Item.TotalWithoutTaxAndWithDiscount, hd, Discount.getDiscount, hk,
      ite_true, Dec.toRat_Sub]
  have hdsub : c10Item.TotalWithoutTaxAndWithDiscount.toRat = -4 := by
    rw [show c10Item.TotalWithoutTaxAndWithDiscount = (⟨-4, 0⟩ : Dec) from rfl]
    norm_num [Dec.toRat]
  have htax : c10Item.TaxWithTotalDiscounted.toRat = -6 := by
    have h1 : c10Item.TaxWithTotalDiscounted
        = Dec.Mul ⟨-4, 0⟩ (Dec.Div ⟨150, 0⟩ NewFromFloat100) := rfl
    rw [h1, Dec.toRat_Mul]
    norm_num [Dec.Div, Dec.toRat, rhaz, NewFromFloat100, DivisionPrecision]
  refine ⟨hflat, rfl, hdsub, htax, ?_⟩
  rw [Item.TotalWithTaxAndDiscount, Dec.toRat_Add, hdsub, htax]
  norm_num

/-- Witness for C10's universal part at the flat discount of 5. -/
theorem C10_witness :
    c10Item.Discount = some ⟨AdjustmentKind.Amount, "5", ⟨5, 0⟩⟩ ∧
    c10Item.TotalWithoutTaxAndWithDiscount.toRat
      = c10Item.TotalWithoutTaxAndWithoutDiscount.toRat - Dec.toRat ⟨5, 0⟩ :=
  ⟨rfl, C10_theorem.1 c10Item ⟨AdjustmentKind.Amount, "5", ⟨5, 0⟩⟩ rfl rfl⟩

/-- C4 (amended): the text placed in the total column by `appendColTo`
is the caller-supplied `Total` string field (encoded), independent of
the computed grand total. -/
theorem C4_theorem (i : Item) (offs : ColOffsets) (options : Options)
    (doc : Document) (h0 : doc.pdf.ops = [])
    (h1 : offs.ItemColUnitPriceOffset ≠ offs.ItemColTotalHTOffset)
    (h2 : offs.ItemColQuantityOffset ≠ offs.ItemColTotalHTOffset) :
    cellTextsAt offs.ItemColTotalHTOffset ((i.appendColTo offs options doc).pdf.ops)
      = [doc.encodeString i.Total] := by
  by_cases hdesc : 0 < i.Description.length
  · simp [Item.appendColTo, PdfState.SetX, PdfState.SetY, PdfState.MultiCell,
      PdfState.CellFormat, PdfState.SetFont, PdfState.SetTextColor,
      PdfState.GetY, hdesc, h0, cellTextsAt, h1, h2]
  · simp [Item.appendColTo, PdfState.SetX, PdfState.SetY, PdfState.MultiCell,
      PdfState.CellFormat, PdfState.SetFont, PdfState.SetTextColor,
      PdfState.GetY, hdesc, h0, cellTextsAt, h1, h2]

/-- Counterexample to C4 as stated: `c4Item` is prepared, its computed
grand total is 30, yet the total column receives the caller-supplied
string "999.99", whose decimal value 999.99 is not 30. -/
theorem C4_counterexample :
    c4Raw.Prepare = (none, c4Item) ∧
    cellTextsAt 117 ((c4Item.appendColTo cOffs cOpts c4Doc).pdf.ops) = ["999.99"] ∧
    c4Item.TotalWithTaxAndDiscount.toRat = 30 ∧
    NewFromString c4Item.Total = .ok ⟨99999, -2⟩ ∧
    Dec.toRat ⟨99999, -2⟩ ≠ c4Item.TotalWithTaxAndDiscount.toRat := by
  have hg : c4Item.TotalWithTaxAndDiscount = (⟨3000, -2⟩ : Dec) := rfl
  refine ⟨rfl, ?_, ?_, rfl, ?_⟩
  · norm_num [Item.appendColTo, PdfState.SetX, PdfState.SetY, PdfState.MultiCell,
      PdfState.CellFormat, PdfState.SetFont, PdfState.SetTextColor,
      PdfState.GetY, c4Doc, c4Item, c4Raw, cPdf, cOffs, cOpts, cellTextsAt]
    simp
  · rw [hg]
    norm_num [Dec.toRat]
  · rw [hg]
    norm_num [Dec.toRat]

/-- Witness for C4's general statement at the concrete document. -/
theorem C4_witness :
    c4Doc.pdf.ops = [] ∧
    cOffs.ItemColUnitPriceOffset ≠ cOffs.ItemColTotalHTOffset ∧
    cOffs.ItemColQuantityOffset ≠ cOffs.ItemColTotalHTOffset ∧
    cellTextsAt cOffs.ItemColTotalHTOffset
        ((c4Item.appendColTo cOffs cOpts c4Doc).pdf.ops)
      = [c4Doc.encodeString c4Item.Total] :=
  ⟨rfl, by norm_num [cOffs], by norm_num [cOffs],
    C4_theorem c4Item cOffs cOpts c4Doc rfl (by norm_num [cOffs])
      (by norm_num [cOffs])⟩

/-- C9: the three numeric cells of a row are drawn with one identical
height, equal to the vertical extent of the name-plus-description
block measured from the row's starting cursor position, and afterwards
the shared vertical cursor sits exactly that height below the row's
start. -/
theorem C9_theorem (i : Item) (offs : ColOffsets) (options : Options)
    (doc : Document) (h0 : doc.pdf.ops = []) :
    cellHeights ((i.appendColTo offs options doc).pdf.ops)
      = [rowHeight i offs doc, rowHeight i offs doc, rowHeight i offs doc] ∧
    (i.appendColTo offs options doc).pdf.y = doc.pdf.y + rowHeight i offs doc := by
  by_cases hdesc : 0 < i.Description.length
  · constructor
    · simp [Item.appendColTo, PdfState.SetX, PdfState.SetY, PdfState.MultiCell,
        PdfState.CellFormat, PdfState.SetFont, PdfState.SetTextColor,
        PdfState.GetY, hdesc, h0, cellHeights, rowHeight]
      try ring
    · simp [Item.appendColTo, PdfState.SetX, PdfState.SetY, PdfState.MultiCell,
        PdfState.CellFormat, PdfState.SetFont, PdfState.SetTextColor,
        PdfState.GetY, hdesc, h0, cellHeights, rowHeight]
      try ring
  · constructor
    · simp [Item.appendColTo, PdfState.SetX, PdfState.SetY, PdfState.MultiCell,
        PdfState.CellFormat, PdfState.SetFont, PdfState.SetTextColor,
        PdfState.GetY, hdesc, h0, cellHeights, rowHeight]
      try ring
    · simp [Item.appendColTo, PdfState.SetX, PdfState.SetY, PdfState.MultiCell,
        PdfState.CellFormat, PdfState.SetFont, PdfState.SetTextColor,
        PdfState.GetY, hdesc, h0, cellHeights, rowHeight]
      try ring

/-- Witness for C9 at a concrete two-block row. -/
theorem C9_witness :
    c9Doc.pdf.ops = [] ∧
    cellHeights ((c9Item.appendColTo cOffs cOpts c9Doc).pdf.ops)
      = [rowHeight c9Item cOffs c9Doc, rowHeight c9Item cOffs c9Doc,
        rowHeight c9Item cOffs c9Doc] ∧
    (c9Item.appendColTo cOffs cOpts c9Doc).pdf.y
      = c9Doc.pdf.y + rowHeight c9Item cOffs c9Doc :=
  ⟨rfl, (C9_theorem c9Item cOffs cOpts c9Doc rfl).1,
    (C9_theorem c9Item cOffs cOpts c9Doc rfl).2⟩
